import Mathlib

/-!
Verification of the version-bump utility.

The repository contains two variants of the same ~120-line script:
  * `src/update-project-version.ts` — the Node variant (`fs.readFileSync` /
    `fs.writeFileSync`, kinds `patch` / `minor` / `major`);
  * `src/unnamed/part_000` — the Bun variant (`Bun.file` / `Bun.write`,
    which additionally accepts the abbreviations `p` / `min` / `max`, and
    contains an un-awaited `file.exists()` guard).

The embedding below is a shallow one:

  * The file system is an `Option PackageJson`: `none` means the manifest is
    absent (or unreadable — both collapse to the read throwing), `some pkg`
    means it holds the record `pkg`.  JSON (de)serialization is abstracted as
    the identity on the record: `JSON.parse` of the file yields the record,
    `JSON.stringify` + write stores the record.  "No write occurs" is
    expressed as the file-system state being returned unchanged.
  * JavaScript numbers reachable here are either non-negative integers, `NaN`
    or `undefined` (from destructuring a too-short array); they are embedded
    as the inductive `JSVal`.
  * The JS builtins used by the script are modelled by executable Lean
    functions over the character lists of strings:
      - `s.split(".")` is `jsSplitDot` (split at every occurrence of `.`,
        `"".split(".") = [""]`);
      - `Number(part)` is `jsNumber`: a part that is a non-empty string of
        decimal digits yields that integer, the empty string yields `0`, and
        anything else yields `NaN`.  (Exotic numeral forms JS would also
        accept — leading `+`, exponent notation, surrounding whitespace —
        are mapped to `NaN`; no theorem below depends on `jsNumber` at such
        strings, and a split part can never contain `.` or a fraction.)
      - the template literal `` `${major}.${minor}.${patch}` `` is
        `fmtVersion`, using the JS string conversions `String(n)` (decimal
        digits, modelled by `natToString`), `String(NaN) = "NaN"` and
        `String(undefined) = "undefined"`.
  * Thrown errors are the inductive `JsError`; `Except` models exception
    propagation (an error short-circuits before the write, as in the source,
    where `writeFileSync` / `Bun.write` is only reached after the switch).
  * The un-awaited `file.exists()` in the Bun variant returns a `Promise`
    object; JS truthiness of any object — a `Promise` included — is `true`,
    modelled by `jsTruthy`.
-/

/-- A JavaScript number (or `undefined`) as reachable in this script: the
destructuring `let [major, minor, patch] = ...` yields `undefined` for a
missing element, and `Number` yields `NaN` for non-numeric text. -/
inductive JSVal : Type
  | undef : JSVal
  | nan : JSVal
  | num : Nat → JSVal
deriving DecidableEq, Repr

/-- The JS `++` increment as applied in the switch: `n++` adds one to a
number; on `NaN` (and on `undefined`, which is coerced to `NaN`) the
variable ends up `NaN`. -/
def jsIncr : JSVal → JSVal
  | .num n => .num (n + 1)
  | _ => .nan

/-- Decimal digit character for `d % 10` (used to model JS `String(n)`). -/
def digitChar : Nat → Char
  | 0 => '0' | 1 => '1' | 2 => '2' | 3 => '3' | 4 => '4'
  | 5 => '5' | 6 => '6' | 7 => '7' | 8 => '8' | _ => '9'

/-- Most-significant-first decimal digits, fuel-based so that it reduces in
the kernel (the fuel is never exhausted when it exceeds `n`). -/
def natDigitsAux : Nat → Nat → List Char
  | 0, _ => []
  | fuel + 1, n =>
    if n < 10 then [digitChar n]
    else natDigitsAux fuel (n / 10) ++ [digitChar (n % 10)]

/-- Most-significant-first decimal digits of a natural number. -/
def natDigits (n : Nat) : List Char := natDigitsAux (n + 1) n

/-- JS `String(n)` for a non-negative integer `n`: its decimal numeral. -/
def natToString (n : Nat) : String := String.mk (natDigits n)

/-- JS string conversion of a `JSVal`, as performed by a template literal. -/
def jsValToString : JSVal → String
  | .undef => "undefined"
  | .nan => "NaN"
  | .num n => natToString n

/-- Numeric value of a decimal digit character. -/
def decDigitVal (c : Char) : Nat := c.toNat - 48

/-- Value of a most-significant-first list of decimal digit characters. -/
def digitsVal (l : List Char) : Nat :=
  l.foldl (fun a c => 10 * a + decDigitVal c) 0

/-- JS `Number(s)` restricted to the numerals relevant here: the empty
string is `0`, a string of decimal digits is its value, anything else is
`NaN` (see the header for the deliberate restriction). -/
def jsNumber (s : String) : JSVal :=
  if s.data = [] then .num 0
  else if s.data.all Char.isDigit then .num (digitsVal s.data)
  else .nan

/-- JS `s.split(".")` on the character list: split at every `.`;
the empty list yields `[[]]` (JS: `"".split(".") = [""]`). -/
def splitDot : List Char → List (List Char)
  | [] => [[]]
  | c :: cs =>
    if c = '.' then [] :: splitDot cs
    else
      match splitDot cs with
      | [] => [[c]]
      | p :: ps => (c :: p) :: ps

/-- JS `s.split(".")`. -/
def jsSplitDot (s : String) : List String :=
  (splitDot s.data).map String.mk

/-- `currentVersion.split(".").map(Number)` followed by the destructuring
`let [major, minor, patch] = ...` (a missing element is `undefined`). -/
def jsComponents (currentVersion : String) : JSVal × JSVal × JSVal :=
  let parts := (jsSplitDot currentVersion).map jsNumber
  (parts.getD 0 .undef, parts.getD 1 .undef, parts.getD 2 .undef)

/-- The template literal `` `${major}.${minor}.${patch}` ``. -/
def fmtVersion (major minor patch : JSVal) : String :=
  jsValToString major ++ "." ++ jsValToString minor ++ "." ++ jsValToString patch

/-- Abbreviation used in statements: the version string formatted from a
triple of non-negative integers. -/
def verFmt (major minor patch : Nat) : String :=
  fmtVersion (.num major) (.num minor) (.num patch)

/-- A JS `Promise` value (the un-awaited result of `file.exists()`). -/
structure JsPromise (α : Type) : Type where
  val : α

/-- JS truthiness of an object: every object, a `Promise` included, is
truthy. -/
def jsTruthy {α : Type} (_p : JsPromise α) : Bool := true

/-- The `{ "*": string[] }` object inside `typesVersion`. -/
structure StarMap : Type where
  star : List String
deriving DecidableEq, Repr

/-- The `repository` field. -/
structure Repository : Type where
  type : String
  url : String
deriving DecidableEq, Repr

/-- The `bugs` field. -/
structure Bugs : Type where
  url : String
deriving DecidableEq, Repr

/-- The `PackageJson` record type of both variants.  String-indexed object
types (`scripts`, `devDependencies`, `peerDependencies`) are association
lists. -/
structure PackageJson : Type where
  name : String
  version : String
  description : String
  main : String
  types : String
  typesVersion : StarMap
  scripts : List (String × String)
  repository : Repository
  homepage : String
  bugs : Bugs
  files : List String
  keywords : List String
  author : String
  license : String
  devDependencies : List (String × String)
  peerDependencies : List (String × String)
deriving DecidableEq, Repr

deriving instance DecidableEq for Except

/-- The errors the script can throw. -/
inductive JsError : Type
  /-- The runtime ENOENT error: `fs.readFileSync` throws it when the file is
  absent (Node variant); `await file.json()` rejects with it (Bun variant). -/
  | enoent : JsError
  /-- The explicit `throw new Error("package.json file not found")` of the Bun variant. -/
  | fileNotFound : JsError
  /-- The `default` case of the switch on the version type. -/
  | invalidVersionType : JsError
deriving DecidableEq, Repr

/-- The `message` of each thrown error (the runtime ENOENT text is
abbreviated to its stable prefix). -/
def jsErrorMessage : JsError → String
  | .enoent => "ENOENT: no such file or directory"
  | .fileNotFound => "package.json file not found"
  | .invalidVersionType => "❎ Invalid version type. Use \"patch\", \"minor\", or \"major\"."

/-- The `switch (type)` of the Node variant (`src/update-project-version.ts`,
lines 58–78): it either updates the three version variables or throws the
invalid-version-type error. -/
def bumpComponents (type : String) (major minor patch : JSVal) :
    Except JsError (JSVal × JSVal × JSVal) :=
  match type with
  | "patch" => .ok (major, minor, jsIncr patch)
  | "minor" => .ok (major, jsIncr minor, .num 0)
  | "major" => .ok (jsIncr major, .num 0, .num 0)
  | _ => .error .invalidVersionType

/-- The `switch (type)` of the Bun variant (`src/unnamed/part_000`,
lines 63–89): same as the Node variant plus the abbreviation aliases
`p`, `min` and `max`. -/
def bumpComponentsBun (type : String) (major minor patch : JSVal) :
    Except JsError (JSVal × JSVal × JSVal) :=
  match type with
  | "p" | "patch" => .ok (major, minor, jsIncr patch)
  | "min" | "minor" => .ok (major, jsIncr minor, .num 0)
  | "max" | "major" => .ok (jsIncr major, .num 0, .num 0)
  | _ => .error .invalidVersionType

/-- `updateVersion` of the Node variant: read the manifest (`readFileSync`
throws ENOENT when it is absent), parse the version, run the switch, format
the new version and write the updated record back.  On success the result
carries the written record together with `currentVersion` and `newVersion`
(both logged by the source). -/
def updateVersion (fs : Option PackageJson) (type : String) :
    Except JsError (PackageJson × String × String) :=
  match fs with
  | none => .error .enoent
  | some packageJson =>
    let currentVersion := packageJson.version
    let c := jsComponents currentVersion
    match bumpComponents type c.1 c.2.1 c.2.2 with
    | .error e => .error e
    | .ok (major, minor, patch) =>
      let newVersion := fmtVersion major minor patch
      .ok ({ packageJson with version := newVersion }, currentVersion, newVersion)

/-- The manifest file after running the Node `updateVersion`: `writeFileSync`
stores the updated record on success; a thrown error leaves the file
untouched (the write is only reached after the switch). -/
def fsAfter (fs : Option PackageJson) (type : String) : Option PackageJson :=
  match updateVersion fs type with
  | .ok (p, _, _) => some p
  | .error _ => fs

/-- `updateVersion` of the Bun variant: the guard `if (!file.exists())` tests
the truthiness of the un-awaited `Promise` returned by `file.exists()`;
`await file.json()` rejects with ENOENT when the file is absent; then the
switch (with aliases), format and `Bun.write`. -/
def updateVersionBun (fs : Option PackageJson) (type : String) :
    Except JsError (PackageJson × String × String) :=
  if !(jsTruthy { val := fs.isSome : JsPromise Bool }) then
    .error .fileNotFound
  else
    match fs with
    | none => .error .enoent
    | some packageJson =>
      let currentVersion := packageJson.version
      let c := jsComponents currentVersion
      match bumpComponentsBun type c.1 c.2.1 c.2.2 with
      | .error e => .error e
      | .ok (major, minor, patch) =>
        let newVersion := fmtVersion major minor patch
        .ok ({ packageJson with version := newVersion }, currentVersion, newVersion)

/-- The manifest file after running the Bun `updateVersion`. -/
def fsAfterBun (fs : Option PackageJson) (type : String) : Option PackageJson :=
  match updateVersionBun fs type with
  | .ok (p, _, _) => some p
  | .error _ => fs

/-- Observable outcome of one run of `startScript` after the answer line is
available: final file-system state, logged lines, error lines, and the
process exit code. -/
structure RunResult : Type where
  fsAfter : Option PackageJson
  stdoutLines : List String
  stderrLines : List String
  exitCode : Nat
deriving DecidableEq, Repr

/-- `startScript` of the Node variant, from the point where the readline
callback receives `answer`: `try { updateVersion(answer.trim()) }` — printing
the success line on return — `catch` printing the error message, `finally`
closing the interface and calling `process.exit(1)`. -/
def startScript (fs : Option PackageJson) (answer : String) : RunResult :=
  match updateVersion fs answer.trim with
  | .ok (p, currentVersion, newVersion) =>
    { fsAfter := some p
      stdoutLines := ["✅ Successfully updated version: " ++ currentVersion ++ " → " ++ newVersion]
      stderrLines := []
      exitCode := 1 }
  | .error e =>
    { fsAfter := fs
      stdoutLines := []
      stderrLines := [jsErrorMessage e]
      exitCode := 1 }

/-- `startScript` of the Bun variant (identical shape; it awaits
`updateVersion` and likewise ends in `process.exit(1)`). -/
def startScriptBun (fs : Option PackageJson) (answer : String) : RunResult :=
  match updateVersionBun fs answer.trim with
  | .ok (p, currentVersion, newVersion) =>
    { fsAfter := some p
      stdoutLines := ["✅ Successfully updated version: " ++ currentVersion ++ " → " ++ newVersion]
      stderrLines := []
      exitCode := 1 }
  | .error e =>
    { fsAfter := fs
      stdoutLines := []
      stderrLines := [jsErrorMessage e]
      exitCode := 1 }

/-- A version string is well formed when it splits on `.` into exactly three
parts, each of which `Number` maps to an integer (not `NaN`). -/
def isThreeNumericParts (v : String) : Bool :=
  let parts := (jsSplitDot v).map jsNumber
  parts.length == 3 && parts.all fun x => match x with
    | .num _ => true
    | _ => false

/-- Strict semantic-version precedence on triples: compare major, then
minor, then patch. -/
def semverLt (a b : Nat × Nat × Nat) : Prop :=
  a.1 < b.1 ∨ (a.1 = b.1 ∧ (a.2.1 < b.2.1 ∨ (a.2.1 = b.2.1 ∧ a.2.2 < b.2.2)))

instance (a b : Nat × Nat × Nat) : Decidable (semverLt a b) := by
  unfold semverLt; infer_instance

/-- A concrete manifest record used by the witnesses. -/
def pkgA : PackageJson :=
  { name := "sample-lib"
    version := "1.2.3"
    description := "a sample"
    main := "index.js"
    types := "index.d.ts"
    typesVersion := { star := ["index.d.ts"] }
    scripts := [("build", "bun build")]
    repository := { type := "git", url := "https://example.com/repo.git" }
    homepage := "https://example.com"
    bugs := { url := "https://example.com/issues" }
    files := ["dist"]
    keywords := ["sample"]
    author := "someone"
    license := "MIT"
    devDependencies := [("typescript", "5.0.0")]
    peerDependencies := [] }

/-- The manifest with a four-part version, used for the C5 counterexample. -/
def pkgFour : PackageJson := { pkgA with version := "1.2.3.4" }

theorem digitChar_ne_dot (d : Nat) : digitChar d ≠ '.' := by
  unfold digitChar; split <;> decide

theorem digitChar_isDigit (d : Nat) : (digitChar d).isDigit = true := by
  unfold digitChar; split <;> decide

theorem decDigitVal_digitChar (d : Nat) (h : d < 10) :
    decDigitVal (digitChar d) = d := by
  interval_cases d <;> rfl

theorem natDigitsAux_ne_nil (fuel n : Nat) (h : n < fuel) :
    natDigitsAux fuel n ≠ [] := by
  cases fuel with
  | zero => omega
  | succ f =>
    unfold natDigitsAux
    split
    · simp
    · simp

theorem natDigits_ne_nil (n : Nat) : natDigits n ≠ [] :=
  natDigitsAux_ne_nil (n + 1) n (by omega)

theorem natDigitsAux_all_digit (fuel : Nat) :
    ∀ n, (natDigitsAux fuel n).all Char.isDigit = true := by
  induction fuel with
  | zero => intro n; rfl
  | succ f ih =>
    intro n
    unfold natDigitsAux
    split
    · simp [digitChar_isDigit]
    · rw [List.all_append]
      simp [ih (n / 10), digitChar_isDigit]

theorem natDigits_all_digit (n : Nat) :
    (natDigits n).all Char.isDigit = true :=
  natDigitsAux_all_digit (n + 1) n

theorem natDigitsAux_ne_dot (fuel : Nat) :
    ∀ n, ∀ c ∈ natDigitsAux fuel n, c ≠ '.' := by
  induction fuel with
  | zero => intro n c hc; simp [natDigitsAux] at hc
  | succ f ih =>
    intro n c hc
    unfold natDigitsAux at hc
    split at hc
    · simp at hc
      subst hc
      exact digitChar_ne_dot _
    · rw [List.mem_append] at hc
      rcases hc with hc | hc
      · exact ih (n / 10) c hc
      · simp at hc
        subst hc
        exact digitChar_ne_dot _

theorem natDigits_ne_dot (n : Nat) (c : Char) (hc : c ∈ natDigits n) :
    c ≠ '.' :=
  natDigitsAux_ne_dot (n + 1) n c hc

theorem foldl_natDigitsAux (fuel : Nat) :
    ∀ n, n < fuel → ∀ a : Nat,
      (natDigitsAux fuel n).foldl (fun a c => 10 * a + decDigitVal c) a =
        a * 10 ^ (natDigitsAux fuel n).length + n := by
  induction fuel with
  | zero => omega
  | succ f ih =>
    intro n hn a
    unfold natDigitsAux
    split
    · rename_i h
      simp [List.foldl, decDigitVal_digitChar n h, Nat.mul_comm]
    · rename_i h
      have hd : n / 10 < f := by
        have h1 : n / 10 < n := Nat.div_lt_self (by omega) (by omega)
        omega
      rw [List.foldl_append, ih (n / 10) hd a]
      simp only [List.foldl]
      rw [decDigitVal_digitChar _ (Nat.mod_lt _ (by omega))]
      rw [List.length_append, List.length_singleton, pow_succ]
      have := Nat.div_add_mod n 10
      ring_nf
      omega

theorem foldl_natDigits (n : Nat) :
    ∀ a : Nat, (natDigits n).foldl (fun a c => 10 * a + decDigitVal c) a =
      a * 10 ^ (natDigits n).length + n :=
  foldl_natDigitsAux (n + 1) n (by omega)

theorem jsNumber_natToString (n : Nat) :
    jsNumber (natToString n) = .num n := by
  unfold jsNumber natToString
  simp only [String.mk]
  rw [if_neg (natDigits_ne_nil n), if_pos (natDigits_all_digit n)]
  unfold digitsVal
  rw [foldl_natDigits n 0]
  simp

theorem splitDot_ne_nil (l : List Char) : splitDot l ≠ [] := by
  cases l with
  | nil => simp [splitDot]
  | cons c cs =>
    unfold splitDot
    split
    · simp
    · split <;> simp

theorem splitDot_no_dot (a : List Char) (h : ∀ c ∈ a, c ≠ '.') :
    splitDot a = [a] := by
  induction a with
  | nil => rfl
  | cons c cs ih =>
    unfold splitDot
    rw [if_neg (h c (by simp))]
    rw [ih (fun x hx => h x (by simp [hx]))]

theorem splitDot_append_dot (a b : List Char) (h : ∀ c ∈ a, c ≠ '.') :
    splitDot (a ++ '.' :: b) = a :: splitDot b := by
  induction a with
  | nil => simp [splitDot]
  | cons c cs ih =>
    simp only [List.cons_append]
    conv_lhs => rw [splitDot]
    rw [if_neg (h c (by simp))]
    rw [ih (fun x hx => h x (by simp [hx]))]

theorem data_verFmt (a b c : Nat) :
    (verFmt a b c).data =
      natDigits a ++ '.' :: (natDigits b ++ '.' :: natDigits c) := by
  unfold verFmt fmtVersion jsValToString natToString
  rw [String.data_append, String.data_append, String.data_append,
    String.data_append]
  simp [String.mk]

theorem jsSplitDot_verFmt (a b c : Nat) :
    jsSplitDot (verFmt a b c) =
      [natToString a, natToString b, natToString c] := by
  unfold jsSplitDot
  rw [data_verFmt]
  rw [splitDot_append_dot _ _ (fun x hx => natDigits_ne_dot a x hx)]
  rw [splitDot_append_dot _ _ (fun x hx => natDigits_ne_dot b x hx)]
  rw [splitDot_no_dot _ (fun x hx => natDigits_ne_dot c x hx)]
  rfl

theorem jsComponents_of_split (v : String) (sM sN sP : String)
    (M N P : Nat) (hs : jsSplitDot v = [sM, sN, sP])
    (hM : jsNumber sM = .num M) (hN : jsNumber sN = .num N)
    (hP : jsNumber sP = .num P) :
    jsComponents v = (.num M, .num N, .num P) := by
  unfold jsComponents
  rw [hs]
  simp [hM, hN, hP]

theorem jsComponents_verFmt (a b c : Nat) :
    jsComponents (verFmt a b c) = (.num a, .num b, .num c) :=
  jsComponents_of_split _ _ _ _ _ _ _ (jsSplitDot_verFmt a b c)
    (jsNumber_natToString a) (jsNumber_natToString b) (jsNumber_natToString c)

theorem verFmt_ne_of_parts (v : String) (sM sN sP : String)
    (M N P a b c : Nat) (hs : jsSplitDot v = [sM, sN, sP])
    (hM : jsNumber sM = .num M) (hN : jsNumber sN = .num N)
    (hP : jsNumber sP = .num P) (hne : (a, b, c) ≠ (M, N, P)) :
    verFmt a b c ≠ v := by
  intro he
  rw [← he] at hs
  rw [jsSplitDot_verFmt] at hs
  simp only [List.cons.injEq, and_true] at hs
  obtain ⟨ha, hb, hc⟩ := hs
  rw [← ha] at hM
  rw [← hb] at hN
  rw [← hc] at hP
  rw [jsNumber_natToString] at hM hN hP
  simp only [JSVal.num.injEq] at hM hN hP
  exact hne (by simp [hM, hN, hP])

theorem bumpComponents_error_eq (type : String) (a b c : JSVal) (e : JsError)
    (h : bumpComponents type a b c = .error e) : e = .invalidVersionType := by
  unfold bumpComponents at h
  split at h <;> simp_all

theorem bumpComponentsBun_error_eq (type : String) (a b c : JSVal) (e : JsError)
    (h : bumpComponentsBun type a b c = .error e) : e = .invalidVersionType := by
  unfold bumpComponentsBun at h
  split at h <;> simp_all

/-- C1: for every manifest whose version parses as the triple `(M, N, P)`
and every recognized kind, the incremented component increases by one, the
components below reset to zero and the components above are unchanged, in
both variants: `patch` yields `M.N.(P+1)`, `minor` yields `M.(N+1).0`,
`major` yields `(M+1).0.0`. -/
theorem updateVersion_bump_exact (pkg : PackageJson) (sM sN sP : String)
    (M N P : Nat) (hs : jsSplitDot pkg.version = [sM, sN, sP])
    (hM : jsNumber sM = .num M) (hN : jsNumber sN = .num N)
    (hP : jsNumber sP = .num P) :
    updateVersion (some pkg) "patch" =
      .ok ({ pkg with version := verFmt M N (P + 1) }, pkg.version,
        verFmt M N (P + 1)) ∧
    updateVersion (some pkg) "minor" =
      .ok ({ pkg with version := verFmt M (N + 1) 0 }, pkg.version,
        verFmt M (N + 1) 0) ∧
    updateVersion (some pkg) "major" =
      .ok ({ pkg with version := verFmt (M + 1) 0 0 }, pkg.version,
        verFmt (M + 1) 0 0) ∧
    updateVersionBun (some pkg) "patch" =
      .ok ({ pkg with version := verFmt M N (P + 1) }, pkg.version,
        verFmt M N (P + 1)) ∧
    updateVersionBun (some pkg) "minor" =
      .ok ({ pkg with version := verFmt M (N + 1) 0 }, pkg.version,
        verFmt M (N + 1) 0) ∧
    updateVersionBun (some pkg) "major" =
      .ok ({ pkg with version := verFmt (M + 1) 0 0 }, pkg.version,
        verFmt (M + 1) 0 0) := by
  have hc := jsComponents_of_split pkg.version sM sN sP M N P hs hM hN hP
  refine ⟨?_, ?_, ?_, ?_, ?_, ?_⟩ <;>
    simp [updateVersion, updateVersionBun, jsTruthy, hc, bumpComponents,
      bumpComponentsBun, jsIncr, verFmt]

theorem updateVersion_bump_exact_witness :
    updateVersion (some pkgA) "patch" =
      .ok ({ pkgA with version := verFmt 1 2 4 }, pkgA.version, verFmt 1 2 4) ∧
    updateVersion (some pkgA) "minor" =
      .ok ({ pkgA with version := verFmt 1 3 0 }, pkgA.version, verFmt 1 3 0) ∧
    updateVersion (some pkgA) "major" =
      .ok ({ pkgA with version := verFmt 2 0 0 }, pkgA.version, verFmt 2 0 0) ∧
    updateVersionBun (some pkgA) "patch" =
      .ok ({ pkgA with version := verFmt 1 2 4 }, pkgA.version, verFmt 1 2 4) ∧
    updateVersionBun (some pkgA) "minor" =
      .ok ({ pkgA with version := verFmt 1 3 0 }, pkgA.version, verFmt 1 3 0) ∧
    updateVersionBun (some pkgA) "major" =
      .ok ({ pkgA with version := verFmt 2 0 0 }, pkgA.version, verFmt 2 0 0) :=
  updateVersion_bump_exact pkgA "1" "2" "3" 1 2 3 (by decide) (by decide)
    (by decide) (by decide)

/-- C2: for any kind that is not a recognized value, `updateVersion` throws
the invalid-version-type error and the manifest is not written (Node: not
`patch`/`minor`/`major`; Bun: additionally not `p`/`min`/`max`). -/
theorem invalid_kind_error_no_write (pkg : PackageJson) (kind : String)
    (h1 : kind ≠ "patch") (h2 : kind ≠ "minor") (h3 : kind ≠ "major") :
    (updateVersion (some pkg) kind = .error .invalidVersionType ∧
      fsAfter (some pkg) kind = some pkg) ∧
    (kind ≠ "p" → kind ≠ "min" → kind ≠ "max" →
      updateVersionBun (some pkg) kind = .error .invalidVersionType ∧
        fsAfterBun (some pkg) kind = some pkg) := by
  have hu : updateVersion (some pkg) kind = .error .invalidVersionType := by
    simp [updateVersion, bumpComponents]
  refine ⟨⟨hu, ?_⟩, ?_⟩
  · simp [fsAfter, hu]
  · intro h4 h5 h6
    have hub : updateVersionBun (some pkg) kind = .error .invalidVersionType := by
      simp [updateVersionBun, jsTruthy, bumpComponentsBun]
    exact ⟨hub, by simp [fsAfterBun, hub]⟩

theorem invalid_kind_error_no_write_witness :
    (updateVersion (some pkgA) "banana" = .error .invalidVersionType ∧
      fsAfter (some pkgA) "banana" = some pkgA) ∧
    (updateVersionBun (some pkgA) "banana" = .error .invalidVersionType ∧
      fsAfterBun (some pkgA) "banana" = some pkgA) :=
  ⟨(invalid_kind_error_no_write pkgA "banana" (by decide) (by decide)
      (by decide)).1,
    (invalid_kind_error_no_write pkgA "banana" (by decide) (by decide)
      (by decide)).2 (by decide) (by decide) (by decide)⟩

/-- C3: with the manifest absent, both variants fail with the ENOENT
file-not-found condition and no write occurs, whatever the kind. -/
theorem missing_manifest_enoent_no_write (kind : String) :
    updateVersion none kind = .error .enoent ∧
    fsAfter none kind = none ∧
    updateVersionBun none kind = .error .enoent ∧
    fsAfterBun none kind = none :=
  ⟨rfl, rfl, rfl, rfl⟩

/-- C4: the Bun guard `if (!file.exists())` tests the truthiness of an
un-awaited `Promise`, which is always truthy, so the
"package.json file not found" error is unreachable for every file-system
state and kind. -/
theorem bun_file_not_found_unreachable (fs : Option PackageJson)
    (kind : String) : updateVersionBun fs kind ≠ .error .fileNotFound := by
  cases fs with
  | none => simp [updateVersionBun, jsTruthy]
  | some pkg =>
    intro h
    simp only [updateVersionBun, jsTruthy, Bool.not_true, Bool.false_eq_true,
      if_false] at h
    cases hb : bumpComponentsBun kind (jsComponents pkg.version).1
        (jsComponents pkg.version).2.1 (jsComponents pkg.version).2.2 with
    | error e =>
      rw [hb] at h
      simp at h
      have := bumpComponentsBun_error_eq kind _ _ _ e hb
      simp [this] at h
    | ok t =>
      rw [hb] at h
      simp at h

/-- C5 (counterexample input): the version `"1.2.3.4"` does not split into
exactly three numeric parts, yet the components JS computes are the plain
numbers `1`, `2`, `3` — neither `NaN` nor missing — and the written version
`"1.2.4"` is itself a clean three-numeric-part string, not a `NaN` artifact. -/
theorem malformed_version_counterexample :
    isThreeNumericParts pkgFour.version = false ∧
    jsComponents pkgFour.version = (.num 1, .num 2, .num 3) ∧
    updateVersion (some pkgFour) "patch" =
      .ok ({ pkgFour with version := "1.2.4" }, "1.2.3.4", "1.2.4") ∧
    fsAfter (some pkgFour) "patch" = some { pkgFour with version := "1.2.4" } ∧
    isThreeNumericParts "1.2.4" = true := by decide

/-- C5 (amended): when the version field does not split into exactly three
numeric parts, `updateVersion` with a recognized kind still does not fail
fast: the switch succeeds on the JS-coerced components and the manifest is
rewritten with the template-formatted string (which may be nonsensical,
e.g. contain `NaN`/`undefined` for missing or non-numeric parts, or silently
drop a fourth part). -/
theorem malformed_version_no_fail_fast (pkg : PackageJson) (kind : String)
    (_hm : isThreeNumericParts pkg.version = false)
    (hk : kind = "patch" ∨ kind = "minor" ∨ kind = "major") :
    ∃ t : JSVal × JSVal × JSVal,
      bumpComponents kind (jsComponents pkg.version).1
          (jsComponents pkg.version).2.1 (jsComponents pkg.version).2.2 =
        .ok t ∧
      updateVersion (some pkg) kind =
        .ok ({ pkg with version := fmtVersion t.1 t.2.1 t.2.2 }, pkg.version,
          fmtVersion t.1 t.2.1 t.2.2) ∧
      fsAfter (some pkg) kind =
        some { pkg with version := fmtVersion t.1 t.2.1 t.2.2 } := by
  rcases hk with rfl | rfl | rfl
  · exact ⟨_, rfl, rfl, rfl⟩
  · exact ⟨_, rfl, rfl, rfl⟩
  · exact ⟨_, rfl, rfl, rfl⟩

theorem malformed_version_no_fail_fast_witness :
    isThreeNumericParts pkgFour.version = false ∧
    (∃ t : JSVal × JSVal × JSVal,
      bumpComponents "patch" (jsComponents pkgFour.version).1
          (jsComponents pkgFour.version).2.1
          (jsComponents pkgFour.version).2.2 = .ok t ∧
      updateVersion (some pkgFour) "patch" =
        .ok ({ pkgFour with version := fmtVersion t.1 t.2.1 t.2.2 },
          pkgFour.version, fmtVersion t.1 t.2.1 t.2.2) ∧
      fsAfter (some pkgFour) "patch" =
        some { pkgFour with version := fmtVersion t.1 t.2.1 t.2.2 }) :=
  ⟨by decide,
    malformed_version_no_fail_fast pkgFour "patch" (by decide) (Or.inl rfl)⟩

/-- C6: whatever kind succeeds, the rewritten manifest differs from the
original only in the `version` field; `name`, `license`, `devDependencies`
and every other field are unchanged, in both variants. -/
theorem update_preserves_other_fields (pkg : PackageJson) (k1 k2 : String)
    (p q : PackageJson) (o n o2 n2 : String)
    (h1 : updateVersion (some pkg) k1 = .ok (p, o, n))
    (h2 : updateVersionBun (some pkg) k2 = .ok (q, o2, n2)) :
    p = { pkg with version := p.version } ∧
    q = { pkg with version := q.version } ∧
    p.name = pkg.name ∧ p.license = pkg.license ∧
    p.devDependencies = pkg.devDependencies ∧
    q.name = pkg.name ∧ q.license = pkg.license ∧
    q.devDependencies = pkg.devDependencies := by
  simp only [updateVersion] at h1
  simp only [updateVersionBun, jsTruthy, Bool.not_true, Bool.false_eq_true,
    if_false] at h2
  have hp : p = { pkg with version := p.version } := by
    split at h1
    · exact absurd h1 (by simp)
    · simp only [Except.ok.injEq, Prod.mk.injEq] at h1
      obtain ⟨hrec, -, -⟩ := h1
      subst hrec
      rfl
  have hq : q = { pkg with version := q.version } := by
    split at h2
    · exact absurd h2 (by simp)
    · simp only [Except.ok.injEq, Prod.mk.injEq] at h2
      obtain ⟨hrec, -, -⟩ := h2
      subst hrec
      rfl
  refine ⟨hp, hq, ?_, ?_, ?_, ?_, ?_, ?_⟩ <;>
    first
      | rw [hp]
      | rw [hq]

theorem update_preserves_other_fields_witness :
    { pkgA with version := verFmt 1 2 4 } =
      { pkgA with version := ({ pkgA with version := verFmt 1 2 4 } : PackageJson).version } ∧
    { pkgA with version := verFmt 1 3 0 } =
      { pkgA with version := ({ pkgA with version := verFmt 1 3 0 } : PackageJson).version } ∧
    ({ pkgA with version := verFmt 1 2 4 } : PackageJson).name = pkgA.name ∧
    ({ pkgA with version := verFmt 1 2 4 } : PackageJson).license = pkgA.license ∧
    ({ pkgA with version := verFmt 1 2 4 } : PackageJson).devDependencies = pkgA.devDependencies ∧
    ({ pkgA with version := verFmt 1 3 0 } : PackageJson).name = pkgA.name ∧
    ({ pkgA with version := verFmt 1 3 0 } : PackageJson).license = pkgA.license ∧
    ({ pkgA with version := verFmt 1 3 0 } : PackageJson).devDependencies = pkgA.devDependencies :=
  update_preserves_other_fields pkgA "patch" "min"
    { pkgA with version := verFmt 1 2 4 }
    { pkgA with version := verFmt 1 3 0 }
    pkgA.version (verFmt 1 2 4) pkgA.version (verFmt 1 3 0)
    (by decide) (by decide)

/-- C7: for a manifest with a well-formed three-part version and any kind in
`{patch, minor, major}`, the Node and Bun variants return identical results
(same updated record, same old and new version strings), and both succeed. -/
theorem variants_agree (pkg : PackageJson) (kind : String)
    (_hv : isThreeNumericParts pkg.version = true)
    (hk : kind = "patch" ∨ kind = "minor" ∨ kind = "major") :
    updateVersionBun (some pkg) kind = updateVersion (some pkg) kind ∧
    ∃ r, updateVersion (some pkg) kind = .ok r := by
  rcases hk with rfl | rfl | rfl <;> exact ⟨rfl, _, rfl⟩

theorem variants_agree_witness :
    updateVersionBun (some pkgA) "minor" = updateVersion (some pkgA) "minor" ∧
    ∃ r, updateVersion (some pkgA) "minor" = .ok r :=
  variants_agree pkgA "minor" (by decide) (Or.inr (Or.inl rfl))

/-- C8: for every file-system state and every answer line, both variants
terminate through `process.exit(1)`: the exit code is `1` — non-zero — no
matter whether the update succeeded or failed. -/
theorem exit_code_always_nonzero (fs : Option PackageJson) (answer : String) :
    (startScript fs answer).exitCode = 1 ∧
    (startScriptBun fs answer).exitCode = 1 ∧
    (startScript fs answer).exitCode ≠ 0 ∧
    (startScriptBun fs answer).exitCode ≠ 0 := by
  have h1 : (startScript fs answer).exitCode = 1 := by
    unfold startScript
    split <;> rfl
  have h2 : (startScriptBun fs answer).exitCode = 1 := by
    unfold startScriptBun
    split <;> rfl
  exact ⟨h1, h2, by omega, by omega⟩

/-- C9: in the Bun variant the abbreviations `p`, `min` and `max` behave
exactly like `patch`, `minor` and `major` on any manifest with a well-formed
version triple. -/
theorem bun_aliases_equivalent (pkg : PackageJson)
    (_hv : isThreeNumericParts pkg.version = true) :
    updateVersionBun (some pkg) "p" = updateVersionBun (some pkg) "patch" ∧
    updateVersionBun (some pkg) "min" = updateVersionBun (some pkg) "minor" ∧
    updateVersionBun (some pkg) "max" = updateVersionBun (some pkg) "major" :=
  ⟨rfl, rfl, rfl⟩

theorem bun_aliases_equivalent_witness :
    updateVersionBun (some pkgA) "p" = updateVersionBun (some pkgA) "patch" ∧
    updateVersionBun (some pkgA) "min" = updateVersionBun (some pkgA) "minor" ∧
    updateVersionBun (some pkgA) "max" = updateVersionBun (some pkgA) "major" :=
  bun_aliases_equivalent pkgA (by decide)

/-- C10: for every manifest whose version parses as `(M, N, P)` and every
recognized kind, the written version is strictly greater in semantic-version
precedence (major, then minor, then patch), and the new version string is
never equal to the old one. -/
theorem version_strictly_increases (pkg : PackageJson) (sM sN sP : String)
    (M N P : Nat) (hs : jsSplitDot pkg.version = [sM, sN, sP])
    (hM : jsNumber sM = .num M) (hN : jsNumber sN = .num N)
    (hP : jsNumber sP = .num P) :
    (fsAfter (some pkg) "patch" = some { pkg with version := verFmt M N (P + 1) } ∧
      jsComponents (verFmt M N (P + 1)) = (.num M, .num N, .num (P + 1)) ∧
      semverLt (M, N, P) (M, N, P + 1) ∧
      verFmt M N (P + 1) ≠ pkg.version) ∧
    (fsAfter (some pkg) "minor" = some { pkg with version := verFmt M (N + 1) 0 } ∧
      jsComponents (verFmt M (N + 1) 0) = (.num M, .num (N + 1), .num 0) ∧
      semverLt (M, N, P) (M, N + 1, 0) ∧
      verFmt M (N + 1) 0 ≠ pkg.version) ∧
    (fsAfter (some pkg) "major" = some { pkg with version := verFmt (M + 1) 0 0 } ∧
      jsComponents (verFmt (M + 1) 0 0) = (.num (M + 1), .num 0, .num 0) ∧
      semverLt (M, N, P) (M + 1, 0, 0) ∧
      verFmt (M + 1) 0 0 ≠ pkg.version) := by
  have hc := jsComponents_of_split pkg.version sM sN sP M N P hs hM hN hP
  refine
    ⟨⟨?_, jsComponents_verFmt _ _ _, by simp [semverLt],
        verFmt_ne_of_parts pkg.version sM sN sP M N P M N (P + 1) hs hM hN hP
          (by simp)⟩,
      ⟨?_, jsComponents_verFmt _ _ _, by simp [semverLt],
        verFmt_ne_of_parts pkg.version sM sN sP M N P M (N + 1) 0 hs hM hN hP
          (by simp)⟩,
      ⟨?_, jsComponents_verFmt _ _ _, by simp [semverLt],
        verFmt_ne_of_parts pkg.version sM sN sP M N P (M + 1) 0 0 hs hM hN hP
          (by simp)⟩⟩ <;>
    simp [fsAfter, updateVersion, hc, bumpComponents, jsIncr, verFmt]

theorem version_strictly_increases_witness :
    (fsAfter (some pkgA) "patch" = some { pkgA with version := verFmt 1 2 4 } ∧
      jsComponents (verFmt 1 2 4) = (.num 1, .num 2, .num 4) ∧
      semverLt (1, 2, 3) (1, 2, 4) ∧
      verFmt 1 2 4 ≠ pkgA.version) ∧
    (fsAfter (some pkgA) "minor" = some { pkgA with version := verFmt 1 3 0 } ∧
      jsComponents (verFmt 1 3 0) = (.num 1, .num 3, .num 0) ∧
      semverLt (1, 2, 3) (1, 3, 0) ∧
      verFmt 1 3 0 ≠ pkgA.version) ∧
    (fsAfter (some pkgA) "major" = some { pkgA with version := verFmt 2 0 0 } ∧
      jsComponents (verFmt 2 0 0) = (.num 2, .num 0, .num 0) ∧
      semverLt (1, 2, 3) (2, 0, 0) ∧
      verFmt 2 0 0 ≠ pkgA.version) :=
  version_strictly_increases pkgA "1" "2" "3" 1 2 3 (by decide) (by decide)
    (by decide) (by decide)
